import Mathlib

/-!
Verification of the QuestFocus progression engine.

Shallow embedding of the core state-transition logic of the study-timer
application: the leveling curve (`calculateNextLevelXP` in `constants.ts`),
the stop handler (`handleStop` in the main application file) with its
level-up loop, streak update and achievement evaluation, and the Gemini
feedback service (`getSessionFeedback`).

Modelling conventions:
- JavaScript numbers holding integer quantities (XP, minutes, seconds,
  levels) are modelled as `Nat`; millisecond timestamps as `Int`.
- The curve `Math.floor(500 * Math.pow(1.2, level - 1))` is modelled with
  exact rational arithmetic: `1.2 = 6/5`, so the floor is the natural-number
  division `500 * 6 ^ (level - 1) / 5 ^ (level - 1)`. The source computes in
  IEEE-754 doubles, where `Math.pow` is implementation-approximated; the
  double computation agrees with this exact model at levels 1 to 3 (500,
  600, 720), which are the only curve values the concrete claims exercise,
  but diverges at higher levels (first at level 4, where the double floor
  gives 863 and the exact value is 864) and saturates at Infinity near
  level 3894. Properties proved below about the curve use only positivity,
  which both computations share at every level reachable with finite XP.
- Calendar dates (the `toISOString().split(..)[0]` strings) are modelled as
  `Int` day numbers; the day immediately before day `d` is `d - 1`.
- The `while (newXP >= newNextLevelXP)` loop is embedded with an explicit
  fuel argument equal to the starting XP; every iteration of the loop after
  the first subtracts a freshly recomputed threshold, which is at least 1,
  so this fuel is sufficient and the embedding agrees with the loop.
- The asynchronous feedback call is embedded by passing the outcome of the
  network call and of JSON parsing as explicit parameters (`Except` for a
  thrown exception), and the result records whether a call was attempted.
-/

/-- XP_PER_MINUTE from constants.ts. -/
def XP_PER_MINUTE : Nat := 10

/-- BASE_LEVEL_XP from constants.ts: base XP needed for level 1 to 2. -/
def BASE_LEVEL_XP : Nat := 500

/-- calculateNextLevelXP from constants.ts:
`Math.floor(BASE_LEVEL_XP * Math.pow(LEVEL_MULTIPLIER, level - 1))` with
`LEVEL_MULTIPLIER = 1.2 = 6/5`, computed with exact rational arithmetic.
This idealizes the double-precision computation of the source: the two
agree at levels 1 to 3 but differ from level 4 on (863 in doubles, 864
exactly), so pointwise claims about this function at higher levels are not
settled by this model. -/
def calculateNextLevelXP (level : Nat) : Nat :=
  BASE_LEVEL_XP * 6 ^ (level - 1) / 5 ^ (level - 1)

/-- UserStats from types.ts. `lastStudyDate` is an optional ISO timestamp in
the source, of which only the calendar-date part is ever consumed, so it is
modelled as an optional day number. -/
structure UserStats where
  level : Nat
  currentXP : Nat
  nextLevelXP : Nat
  totalStudyMinutes : Nat
  streakDays : Nat
  lastStudyDate : Option Int
deriving DecidableEq

/-- INITIAL_STATS from constants.ts. -/
def INITIAL_STATS : UserStats :=
  { level := 1, currentXP := 0, nextLevelXP := BASE_LEVEL_XP,
    totalStudyMinutes := 0, streakDays := 0, lastStudyDate := none }

/-- Session from types.ts. `startTime` and `endTime` are millisecond
timestamps. -/
structure Session where
  id : String
  startTime : Int
  endTime : Int
  durationMinutes : Nat
  subject : String
  xpEarned : Nat
deriving DecidableEq

/-- The identifiers of the five achievements of ACHIEVEMENTS_DATA in
constants.ts (the static title, description and icon strings play no role
in the logic and are omitted). -/
inductive AchId where
  | first_step
  | dedicated
  | streak_3
  | deep_work
  | master
deriving DecidableEq

/-- The condition closures of ACHIEVEMENTS_DATA in constants.ts, represented
as one evaluation function dispatched on the achievement identifier. -/
def achCondition : AchId → UserStats → List Session → Bool
  | .first_step, _, sessions => decide (1 ≤ sessions.length)
  | .dedicated, stats, _ => decide (300 ≤ stats.totalStudyMinutes)
  | .streak_3, stats, _ => decide (3 ≤ stats.streakDays)
  | .deep_work, _, sessions => sessions.any fun s => decide (60 ≤ s.durationMinutes)
  | .master, stats, _ => decide (10 ≤ stats.level)

/-- Achievement from types.ts: identifier plus the mutable unlocked flag. -/
structure Achievement where
  id : AchId
  unlocked : Bool
deriving DecidableEq

/-- The initial achievement list: `ACHIEVEMENTS_DATA.map(a => (..a, unlocked: false))`. -/
def initialAchievements : List Achievement :=
  [⟨.first_step, false⟩, ⟨.dedicated, false⟩, ⟨.streak_3, false⟩,
   ⟨.deep_work, false⟩, ⟨.master, false⟩]

/-- The achievement evaluation of handleStop: each locked achievement whose
condition holds on the updated stats and sessions becomes unlocked; every
other achievement is returned unchanged. -/
def checkAchievements (achievements : List Achievement) (stats : UserStats)
    (sessions : List Session) : List Achievement :=
  achievements.map fun ach =>
    if !ach.unlocked && achCondition ach.id stats sessions then
      { ach with unlocked := true }
    else ach

/-- The streak computation of handleStop (compare calendar dates; the source
compares date strings, modelled here as day numbers):
if the last study date is not today, then increment when it is exactly
yesterday and otherwise reset to 1; when it is today, leave unchanged. -/
def updateStreak (lastDate : Option Int) (today : Int) (streakDays : Nat) : Nat :=
  if lastDate ≠ some today then
    if lastDate = some (today - 1) then streakDays + 1 else 1
  else streakDays

/-- The `while (newXP >= newNextLevelXP)` loop of handleStop after its first
iteration, when the threshold is always `calculateNextLevelXP` of the
current level. The fuel argument bounds the iteration count; since every
threshold is at least 1, fuel equal to the current XP is sufficient. -/
def levelUpFuel : Nat → Nat → Nat → Nat × Nat
  | 0, xp, level => (xp, level)
  | fuel + 1, xp, level =>
    if calculateNextLevelXP level ≤ xp then
      levelUpFuel fuel (xp - calculateNextLevelXP level) (level + 1)
    else (xp, level)

/-- Runs the recomputed-threshold loop with sufficient fuel. -/
def levelUpAux (xp level : Nat) : Nat × Nat := levelUpFuel xp xp level

/-- The XP and level section of handleStop: add the earned XP, then run the
level-up loop. The first comparison uses the stored `stats.nextLevelXP`;
afterwards the threshold is recomputed from the level. Returns
(new currentXP, new level, new nextLevelXP, didLevelUp). -/
def levelUpLoop (stats : UserStats) (xpEarned : Nat) : Nat × Nat × Nat × Bool :=
  let newXP := stats.currentXP + xpEarned
  if stats.nextLevelXP ≤ newXP then
    let r := levelUpAux (newXP - stats.nextLevelXP) (stats.level + 1)
    (r.1, r.2, calculateNextLevelXP r.2, true)
  else
    (newXP, stats.level, stats.nextLevelXP, false)

/-- The application state touched by handleStop. -/
structure AppState where
  stats : UserStats
  sessions : List Session
  achievements : List Achievement
  timerSeconds : Nat
  subject : String
deriving DecidableEq

/-- handleStop from the main application file. Parameters beyond the state:
`now` is the current millisecond timestamp, `today` the current calendar day
number, `sid` the fresh session id, and `confirmDiscard` the answer the user
would give to the sub-minute discard prompt (the prompt is only shown when
`timerSeconds < 60`). A confirmed discard resets the timer and commits
nothing; otherwise the session is processed: duration is
`Math.ceil(timerSeconds / 60)`, XP is added with the level-up loop, the
streak and stats are updated, the session is prepended, and achievements
are re-evaluated. -/
def handleStop (st : AppState) (now today : Int) (sid : String)
    (confirmDiscard : Bool) : AppState :=
  if st.timerSeconds < 60 ∧ confirmDiscard = true then
    { st with timerSeconds := 0 }
  else
    let durationMinutes := (st.timerSeconds + 59) / 60
    let xpEarned := durationMinutes * XP_PER_MINUTE
    let newTotalMinutes := st.stats.totalStudyMinutes + durationMinutes
    let newSession : Session :=
      { id := sid, startTime := now - (st.timerSeconds : Int) * 1000,
        endTime := now, durationMinutes := durationMinutes,
        subject := st.subject, xpEarned := xpEarned }
    let newStreak := updateStreak st.stats.lastStudyDate today st.stats.streakDays
    let r := levelUpLoop st.stats xpEarned
    let updatedStats : UserStats :=
      { level := r.2.1, currentXP := r.1, nextLevelXP := r.2.2.1,
        totalStudyMinutes := newTotalMinutes, streakDays := newStreak,
        lastStudyDate := some today }
    let updatedSessions := newSession :: st.sessions
    let updatedAchievements := checkAchievements st.achievements updatedStats updatedSessions
    { stats := updatedStats, sessions := updatedSessions,
      achievements := updatedAchievements, timerSeconds := 0, subject := "" }

/-- The feedback message type of GeminiFeedback in types.ts. -/
inductive FeedbackType where
  | encouragement
  | victory
  | tip
deriving DecidableEq

/-- GeminiFeedback from types.ts. -/
structure GeminiFeedback where
  message : String
  type : FeedbackType
deriving DecidableEq

/-- A constructed Gemini client, holding the API key it was created with. -/
structure GeminiClient where
  apiKey : String
deriving DecidableEq

/-- getClient from the Gemini service: returns no client when the API key is
absent (or empty, which is falsy in JavaScript). -/
def getClient (apiKey : Option String) : Option GeminiClient :=
  match apiKey with
  | none => none
  | some k => if k = "" then none else some ⟨k⟩

/-- The fixed fallback returned by getSessionFeedback when the API call or
response parsing throws. -/
def fallbackFeedback : GeminiFeedback :=
  { message := "Quest complete! Well done, adventurer.", type := .victory }

/-- getSessionFeedback from the Gemini service. The outcome of the network
call is passed as `call` (`Except.error` for a thrown exception, otherwise
the optional response text, where JavaScript treats an absent text the same
as an empty one), and JSON parsing as `parse`. Returns the produced feedback
together with whether a network call was attempted: no client means an
immediate `none` with no call; a thrown call or failed parse yields the
fixed fallback; a missing or empty response text yields `none`. -/
def getSessionFeedback (apiKey : Option String)
    (call : Except Unit (Option String))
    (parse : String → Except Unit GeminiFeedback)
    (_durationMinutes : Nat) (_subject : String) (_level : Nat) :
    Option GeminiFeedback × Bool :=
  match getClient apiKey with
  | none => (none, false)
  | some _ =>
    match call with
    | .error _ => (some fallbackFeedback, true)
    | .ok none => (none, true)
    | .ok (some text) =>
      if text = "" then (none, true)
      else
        match parse text with
        | .error _ => (some fallbackFeedback, true)
        | .ok fb => (some fb, true)

/-- A fresh application state about to stop a 65-minute (3900 second)
session on subject X. -/
def freshStartState : AppState :=
  { stats := INITIAL_STATS, sessions := [], achievements := initialAchievements,
    timerSeconds := 3900, subject := "X" }

/-- A fresh application state about to stop a 30-second session. -/
def subMinuteState : AppState :=
  { stats := INITIAL_STATS, sessions := [], achievements := initialAchievements,
    timerSeconds := 30, subject := "math" }

/-- The leveling curve is positive at every level. -/
theorem calculateNextLevelXP_pos (level : Nat) : 0 < calculateNextLevelXP level := by
  unfold calculateNextLevelXP BASE_LEVEL_XP
  apply Nat.div_pos
  · calc (5:Nat) ^ (level - 1) ≤ 6 ^ (level - 1) := Nat.pow_le_pow_left (by norm_num) _
      _ ≤ 500 * 6 ^ (level - 1) := Nat.le_mul_of_pos_left _ (by norm_num)
  · positivity

/-- With fuel at least the starting XP, the level-up loop terminates in a
state whose XP is strictly below the threshold of the final level. -/
theorem levelUpFuel_lt (fuel : Nat) : ∀ xp level, xp ≤ fuel →
    (levelUpFuel fuel xp level).1 <
      calculateNextLevelXP (levelUpFuel fuel xp level).2 := by
  induction fuel with
  | zero =>
    intro xp level h
    have hx : xp = 0 := Nat.le_zero.mp h
    subst hx
    simpa [levelUpFuel] using calculateNextLevelXP_pos level
  | succ n ih =>
    intro xp level h
    by_cases hc : calculateNextLevelXP level ≤ xp
    · have hpos := calculateNextLevelXP_pos level
      simp only [levelUpFuel, if_pos hc]
      exact ih _ _ (by omega)
    · simp only [levelUpFuel, if_neg hc]
      omega

/-- C1: for every stats value with `0 ≤ currentXP < nextLevelXP` and
`nextLevelXP = calculateNextLevelXP level`, and every non-negative XP gain,
the level-up loop returns a state that again satisfies
`0 ≤ currentXP < nextLevelXP` with `nextLevelXP` equal to the leveling
curve at the updated level. -/
theorem xp_invariant_preserved (stats : UserStats) (xpEarned : Nat)
    (_h1 : stats.currentXP < stats.nextLevelXP)
    (h2 : stats.nextLevelXP = calculateNextLevelXP stats.level) :
    0 ≤ (levelUpLoop stats xpEarned).1 ∧
    (levelUpLoop stats xpEarned).1 < (levelUpLoop stats xpEarned).2.2.1 ∧
    (levelUpLoop stats xpEarned).2.2.1 =
      calculateNextLevelXP (levelUpLoop stats xpEarned).2.1 := by
  by_cases hc : stats.nextLevelXP ≤ stats.currentXP + xpEarned
  · simp only [levelUpLoop, levelUpAux, if_pos hc]
    exact ⟨Nat.zero_le _, levelUpFuel_lt _ _ _ (Nat.le_refl _), by trivial⟩
  · simp only [levelUpLoop, if_neg hc]
    exact ⟨Nat.zero_le _, by omega, by simpa using h2⟩

/-- Witness for C1 at a concrete input. -/
theorem xp_invariant_preserved_witness :
    0 ≤ (levelUpLoop INITIAL_STATS 7).1 ∧
    (levelUpLoop INITIAL_STATS 7).1 < (levelUpLoop INITIAL_STATS 7).2.2.1 ∧
    (levelUpLoop INITIAL_STATS 7).2.2.1 =
      calculateNextLevelXP (levelUpLoop INITIAL_STATS 7).2.1 :=
  xp_invariant_preserved INITIAL_STATS 7 (by decide) (by decide)

/-- C2: applying a session worth 1400 XP (140 minutes) to stats at level 1
with currentXP 0 and nextLevelXP 500 yields level 3, currentXP 300 and
nextLevelXP 720, spanning two level-ups in one session. -/
theorem multi_level_rollover :
    levelUpLoop INITIAL_STATS (140 * XP_PER_MINUTE) = (300, 3, 720, true) := by
  decide

/-- C3: the streak update leaves the streak unchanged when the last study
date is the completion day, increments it when the last study date is the
day immediately before, and resets it to 1 in every other case, including
when there is no prior session. -/
theorem streak_update_cases (lastDate : Option Int) (today : Int) (streakDays : Nat) :
    (lastDate = some today → updateStreak lastDate today streakDays = streakDays) ∧
    (lastDate = some (today - 1) →
      updateStreak lastDate today streakDays = streakDays + 1) ∧
    (lastDate ≠ some today → lastDate ≠ some (today - 1) →
      updateStreak lastDate today streakDays = 1) := by
  refine ⟨fun h => ?_, fun h => ?_, fun h1 h2 => ?_⟩
  · simp [updateStreak, h]
  · subst h
    have hne : today - 1 ≠ today := by omega
    simp [updateStreak, hne]
  · simp [updateStreak, h1, h2]

/-- Witness for C3 covering the three cases at concrete inputs. -/
theorem streak_update_cases_witness :
    updateStreak (some 6) 6 2 = 2 ∧ updateStreak (some 5) 6 2 = 3 ∧
    updateStreak (some 3) 6 2 = 1 :=
  ⟨(streak_update_cases (some 6) 6 2).1 rfl,
   (streak_update_cases (some 5) 6 2).2.1 (by norm_num),
   (streak_update_cases (some 3) 6 2).2.2 (by decide) (by decide)⟩

/-- Counterexample for C4: stopping after 30 seconds with the discard prompt
declined still reaches the progression engine: a session with
durationMinutes 1 is appended and XP is credited, even though fewer than 60
seconds elapsed. -/
theorem sub_minute_reaches_engine :
    subMinuteState.timerSeconds < 60 ∧
    (handleStop subMinuteState 0 0 "s1" false).sessions.map Session.durationMinutes = [1] ∧
    (handleStop subMinuteState 0 0 "s1" false).stats.currentXP = 10 := by
  decide

/-- C4 (amended): a stop with elapsed time under 60 seconds is kept away
from the progression engine only when the user confirms the discard; when
the user declines, the sub-minute session is processed with
durationMinutes equal to the rounded-up minute count. -/
theorem sub_minute_discard_needs_confirmation (st : AppState) (now today : Int)
    (sid : String) (h : st.timerSeconds < 60) :
    (handleStop st now today sid true).sessions = st.sessions ∧
    (handleStop st now today sid false).sessions.map Session.durationMinutes =
      (st.timerSeconds + 59) / 60 :: st.sessions.map Session.durationMinutes := by
  constructor
  · simp [handleStop, h]
  · simp [handleStop]

/-- Witness for C4 (amended) at a concrete input. -/
theorem sub_minute_discard_needs_confirmation_witness :
    (handleStop subMinuteState 0 0 "s1" true).sessions = subMinuteState.sessions ∧
    (handleStop subMinuteState 0 0 "s1" false).sessions.map Session.durationMinutes =
      (subMinuteState.timerSeconds + 59) / 60 ::
        subMinuteState.sessions.map Session.durationMinutes :=
  sub_minute_discard_needs_confirmation subMinuteState 0 0 "s1" (by decide)

/-- C5: an achievement whose unlocked flag is true stays unlocked after any
further run of the achievement evaluation, whatever the stats and session
list are. -/
theorem achievement_unlock_monotone (achievements : List Achievement)
    (stats : UserStats) (sessions : List Session) (i : Nat)
    (h1 : i < achievements.length)
    (h2 : i < (checkAchievements achievements stats sessions).length)
    (hu : (achievements.get ⟨i, h1⟩).unlocked = true) :
    ((checkAchievements achievements stats sessions).get ⟨i, h2⟩).unlocked = true := by
  simp only [checkAchievements, List.get_eq_getElem, List.getElem_map] at *
  simp [hu]

/-- Witness for C5 at a concrete input. -/
theorem achievement_unlock_monotone_witness :
    ((checkAchievements [⟨AchId.master, true⟩] INITIAL_STATS []).get
      ⟨0, by decide⟩).unlocked = true :=
  achievement_unlock_monotone [⟨AchId.master, true⟩] INITIAL_STATS [] 0
    (by decide) (by decide) (by decide)

/-- C7: from fresh initial state, stopping one 65-minute session on subject
X yields a session with durationMinutes 65 and xpEarned 650, stats with
level 2, currentXP 150, nextLevelXP 600, totalStudyMinutes 65, and exactly
the first_step and deep_work achievements newly unlocked. -/
theorem end_to_end_session :
    handleStop freshStartState 0 0 "s1" false =
      { stats := { level := 2, currentXP := 150, nextLevelXP := 600,
                   totalStudyMinutes := 65, streakDays := 1, lastStudyDate := some 0 },
        sessions := [{ id := "s1", startTime := -3900000, endTime := 0,
                       durationMinutes := 65, subject := "X", xpEarned := 650 }],
        achievements := [⟨.first_step, true⟩, ⟨.dedicated, false⟩, ⟨.streak_3, false⟩,
                         ⟨.deep_work, true⟩, ⟨.master, false⟩],
        timerSeconds := 0, subject := "" } := by
  decide

/-- C8: the feedback collaborator degrades gracefully. With no API key, no
call is attempted and the result is null. With a key, a thrown call or a
thrown parse yields the fixed fallback message, whose type is victory. -/
theorem feedback_degrades_gracefully (call : Except Unit (Option String))
    (parse : String → Except Unit GeminiFeedback) (d l : Nat) (s k text : String)
    (hk : k ≠ "") (htext : text ≠ "") (hparse : parse text = Except.error ()) :
    getSessionFeedback none call parse d s l = (none, false) ∧
    getSessionFeedback (some k) (Except.error ()) parse d s l =
      (some fallbackFeedback, true) ∧
    getSessionFeedback (some k) (Except.ok (some text)) parse d s l =
      (some fallbackFeedback, true) ∧
    fallbackFeedback.type = FeedbackType.victory := by
  refine ⟨rfl, ?_, ?_, rfl⟩
  · simp [getSessionFeedback, getClient, hk]
  · simp [getSessionFeedback, getClient, hk, htext, hparse]

/-- Witness for C8 at concrete inputs. -/
theorem feedback_degrades_gracefully_witness :
    getSessionFeedback none (Except.ok none) (fun _ => Except.error ()) 5 "X" 1 =
      (none, false) ∧
    getSessionFeedback (some "key") (Except.error ()) (fun _ => Except.error ()) 5 "X" 1 =
      (some fallbackFeedback, true) ∧
    getSessionFeedback (some "key") (Except.ok (some "oops"))
      (fun _ => Except.error ()) 5 "X" 1 = (some fallbackFeedback, true) ∧
    fallbackFeedback.type = FeedbackType.victory :=
  feedback_degrades_gracefully (Except.ok none) (fun _ => Except.error ()) 5 1 "X"
    "key" "oops" (by decide) (by decide) rfl

/-- C9: a confirmed discard of a sub-minute stop commits nothing: the stats,
session ledger and achievements are unchanged and only the elapsed timer is
reset to zero. -/
theorem confirmed_discard_commits_nothing (st : AppState) (now today : Int)
    (sid : String) (h : st.timerSeconds < 60) :
    (handleStop st now today sid true).stats = st.stats ∧
    (handleStop st now today sid true).sessions = st.sessions ∧
    (handleStop st now today sid true).achievements = st.achievements ∧
    (handleStop st now today sid true).timerSeconds = 0 := by
  simp [handleStop, h]

/-- Witness for C9 at a concrete input. -/
theorem confirmed_discard_commits_nothing_witness :
    (handleStop subMinuteState 0 0 "s1" true).stats = subMinuteState.stats ∧
    (handleStop subMinuteState 0 0 "s1" true).sessions = subMinuteState.sessions ∧
    (handleStop subMinuteState 0 0 "s1" true).achievements = subMinuteState.achievements ∧
    (handleStop subMinuteState 0 0 "s1" true).timerSeconds = 0 :=
  confirmed_discard_commits_nothing subMinuteState 0 0 "s1" (by decide)

/-- C10: with a credential present, a call that completes without throwing
but whose response text is missing or empty makes getSessionFeedback return
null, not the fixed fallback message. -/
theorem empty_response_yields_null (parse : String → Except Unit GeminiFeedback)
    (d l : Nat) (s k : String) (hk : k ≠ "") :
    getSessionFeedback (some k) (Except.ok none) parse d s l = (none, true) ∧
    getSessionFeedback (some k) (Except.ok (some "")) parse d s l = (none, true) := by
  constructor <;> simp [getSessionFeedback, getClient, hk]

/-- Witness for C10 at concrete inputs. -/
theorem empty_response_yields_null_witness :
    getSessionFeedback (some "key") (Except.ok none) (fun _ => Except.error ()) 5 "X" 1 =
      (none, true) ∧
    getSessionFeedback (some "key") (Except.ok (some "")) (fun _ => Except.error ()) 5 "X" 1 =
      (none, true) :=
  empty_response_yields_null (fun _ => Except.error ()) 5 1 "X" "key" (by decide)
